import Mathlib

/-!
Shallow embedding of the ContactBookFastAPI contact repository
(`src/repository/contacts.py`), its route layer (`src/routes/contacts.py`),
the `Contact` entity (`src/entity/models.py`), the contact schemas
(`src/schemas/contact.py`) and — modelled from the spec, since its code is
not part of the sources — the token service.

The database is modelled as an explicit state (a list of contact rows plus
a fresh primary-key counter); each repository operation is a function from
that state (and the calling user) to a result and a successor state.  SQL
commit is atomic: a failed commit leaves the committed store unchanged.
Python `date` values are a year/month/day record with Gregorian calendar
arithmetic for `timedelta` addition.
-/

/-- Gregorian leap-year rule, as used by Python's `datetime.date`. -/
def isLeap (y : Nat) : Bool :=
  (y % 4 == 0 && y % 100 != 0) || (y % 400 == 0)

/-- Number of days in a month of the Gregorian calendar. -/
def daysInMonth (y m : Nat) : Nat :=
  if m == 2 then (if isLeap y then 29 else 28)
  else if m == 4 || m == 6 || m == 9 || m == 11 then 30
  else 31

/-- A Python `datetime.date` value: year, month, day. -/
structure PyDate where
  year : Nat
  month : Nat
  day : Nat
deriving DecidableEq, Repr

/-- A date is valid when its month is 1..12 and its day fits the month. -/
def isValidDate (d : PyDate) : Bool :=
  1 ≤ d.month && d.month ≤ 12 && 1 ≤ d.day && d.day ≤ daysInMonth d.year d.month

/-- The day after `d` (Gregorian successor, as `date + timedelta(days=1)`). -/
def nextDay (d : PyDate) : PyDate :=
  if d.day < daysInMonth d.year d.month then ⟨d.year, d.month, d.day + 1⟩
  else if d.month < 12 then ⟨d.year, d.month + 1, 1⟩
  else ⟨d.year + 1, 1, 1⟩

/-- `d + timedelta(days := n)`. -/
def addDays (d : PyDate) : Nat → PyDate
  | 0 => d
  | n + 1 => nextDay (addDays d n)

/-- A row of the `contacts` table (`src/entity/models.py`); `user` is the
identity of the owning `User`, set from the ORM relationship. -/
structure Contact where
  id : Nat
  name : String
  surname : String
  email : String
  phone : String
  birthday : PyDate
  user : Nat
deriving DecidableEq, Repr

/-- The committed database state: the `contacts` table and the next fresh
primary key the store will assign. -/
structure DB where
  contacts : List Contact
  nextId : Nat
deriving DecidableEq, Repr

/-- `ContactSchema` (`src/schemas/contact.py`): payload for creating a contact. -/
structure ContactSchema where
  name : String
  surname : String
  email : String
  phone : String
  birthday : PyDate
deriving DecidableEq, Repr

/-- `ContactUpdate` (`src/schemas/contact.py`): payload for updating a contact;
exactly the five mutable fields. -/
structure ContactUpdate where
  name : String
  surname : String
  email : String
  phone : String
  birthday : PyDate
deriving DecidableEq, Repr

/-- Errors escaping a repository operation: an `HTTPException` raised by the
repository itself, or a store-level `SQLAlchemyError` propagating uncaught. -/
inductive RepoError where
  | httpError (status_code : Nat) (detail : String)
  | storeError (msg : String)
deriving DecidableEq, Repr

/-- The internal error text `str(e)` carried by the store's `SQLAlchemyError`
when the unique constraint on `contacts.email` is violated. -/
def integrityErrorText : String :=
  "(sqlite3.IntegrityError) UNIQUE constraint failed: contacts.email"

/-- Case-folded character list of a string, for `ilike` comparison. -/
def lowerChars (s : String) : List Char :=
  s.toList.map Char.toLower

/-- Does the first list start with the second? -/
def startsWithChars : List Char → List Char → Bool
  | _, [] => true
  | [], _ :: _ => false
  | a :: hs, b :: ns => a == b && startsWithChars hs ns

/-- Does the first list contain the second as a contiguous run? -/
def containsChars : List Char → List Char → Bool
  | [], ns => ns.isEmpty
  | h :: hs, ns => startsWithChars (h :: hs) ns || containsChars hs ns

/-- `column.ilike(f"%{pat}%")`: case-insensitive substring match. -/
def ilikeContains (field pat : String) : Bool :=
  containsChars (lowerChars field) (lowerChars pat)

/-- One optional filter of `get_contacts`: Python applies the filter only
when the argument is truthy (`if name:`), so `None` and `""` both skip it. -/
def optFilter (filt : Option String) (field : String) : Bool :=
  match filt with
  | none => true
  | some s => if s = "" then true else ilikeContains field s

/-- `Result.scalar_one_or_none()`: one row gives the row, no row gives `None`
(two or more rows raise; under the primary-key invariant that cannot occur,
and it is collapsed to `none` here). -/
def scalarOneOrNone (rows : List Contact) : Option Contact :=
  match rows with
  | [c] => some c
  | _ => none

/-- `get_contacts` (`src/repository/contacts.py`): owner-scoped select with
optional case-insensitive substring filters, then OFFSET and LIMIT (the SQL
WHERE clause applies before OFFSET/LIMIT regardless of chaining order). -/
def get_contacts (limit offset : Nat) (name surname email : Option String)
    (db : DB) (current_user : Nat) : List Contact :=
  (((db.contacts.filter (fun c =>
      c.user == current_user && optFilter name c.name
        && optFilter surname c.surname && optFilter email c.email)).drop
    offset).take limit)

/-- `get_contact`: select by primary key and owner, `scalar_one_or_none`. -/
def get_contact (contact_id : Nat) (db : DB) (current_user : Nat) : Option Contact :=
  scalarOneOrNone (db.contacts.filter
    (fun c => c.id == contact_id && c.user == current_user))

/-- `create_contact`: builds a row from the payload with a fresh primary key
and the caller as owner, commits; a violation of the unique constraint on
`contacts.email` makes the commit fail, the repository rolls back (store
unchanged) and raises `HTTPException(500, detail=str(e))`. -/
def create_contact (body : ContactSchema) (db : DB) (current_user : Nat) :
    Except RepoError Contact × DB :=
  let contact : Contact :=
    { id := db.nextId, name := body.name, surname := body.surname,
      email := body.email, phone := body.phone, birthday := body.birthday,
      user := current_user }
  if db.contacts.any (fun c => c.email == body.email) then
    (Except.error (RepoError.httpError 500 integrityErrorText), db)
  else
    (Except.ok contact, { contacts := db.contacts ++ [contact], nextId := db.nextId + 1 })

/-- Overwrite the five mutable fields of a row from a `ContactUpdate`
payload (the `setattr` loop over `contact.model_dump()`). -/
def applyUpdate (c : Contact) (body : ContactUpdate) : Contact :=
  { c with
    name := body.name
    surname := body.surname
    email := body.email
    phone := body.phone
    birthday := body.birthday }

/-- `update_contact`: select by primary key and owner; when found, overwrite
the payload fields and commit (an UPDATE of that row by primary key); a
unique-email violation by another row makes the commit fail atomically and
the `SQLAlchemyError` propagates uncaught; when not found, return `None`. -/
def update_contact (contact_id : Nat) (body : ContactUpdate) (db : DB)
    (current_user : Nat) : Except RepoError (Option Contact) × DB :=
  match scalarOneOrNone (db.contacts.filter
      (fun c => c.id == contact_id && c.user == current_user)) with
  | none => (Except.ok none, db)
  | some existing =>
    if db.contacts.any (fun c => c.id != existing.id && c.email == body.email) then
      (Except.error (RepoError.storeError integrityErrorText), db)
    else
      (Except.ok (some (applyUpdate existing body)),
       { db with
         contacts := db.contacts.map
           (fun c => if c.id == existing.id then applyUpdate c body else c) })

/-- `delete_contact`: select by primary key and owner; when found, delete that
row and commit, returning the prior value; when not found, return `None`. -/
def delete_contact (contact_id : Nat) (db : DB) (current_user : Nat) :
    Except RepoError (Option Contact) × DB :=
  match scalarOneOrNone (db.contacts.filter
      (fun c => c.id == contact_id && c.user == current_user)) with
  | none => (Except.ok none, db)
  | some existing =>
    (Except.ok (some existing),
     { db with contacts := db.contacts.filter (fun c => c.id != existing.id) })

/-- The birthday filter of `get_upcoming_birthdays`: month of the birthday
equals the current month with day at least today's day, or month equals the
month of `today + 7 days` with day at most that date's day — month and day
compared independently, year ignored. -/
def birthdayCond (today next_week b : PyDate) : Bool :=
  (b.month == today.month && decide (today.day ≤ b.day)) ||
  (b.month == next_week.month && decide (b.day ≤ next_week.day))

/-- `get_upcoming_birthdays`: owner-scoped select of contacts whose birthday
passes `birthdayCond` for the given current date (`date.today()` is passed
explicitly; `next_week = today + timedelta(days=7)`). -/
def get_upcoming_birthdays (today : PyDate) (db : DB) (current_user : Nat) :
    List Contact :=
  db.contacts.filter (fun c =>
    birthdayCond today (addDays today 7) c.birthday && c.user == current_user)

/-- An HTTP-layer outcome: a response with a status code and body, or a
raised `HTTPException` with a status code and detail message. -/
inductive HTTPResult (α : Type) where
  | success (status_code : Nat) (body : α)
  | failure (status_code : Nat) (detail : String)
deriving DecidableEq, Repr

/-- Modelled from the spec: the not-found message constant for contact
collections from `src.conf.messages` (module absent from the sources). -/
def CONTACTS_NOT_FOUND : String := "Contacts not found"

/-- Route `GET /contacts/` (`src/routes/contacts.py`): 404 when the
repository result is empty (Python truthiness of the list), 200 otherwise. -/
def route_get_contacts (limit offset : Nat) (name surname email : Option String)
    (db : DB) (current_user : Nat) : HTTPResult (List Contact) :=
  let contacts := get_contacts limit offset name surname email db current_user
  if contacts.isEmpty then HTTPResult.failure 404 CONTACTS_NOT_FOUND
  else HTTPResult.success 200 contacts

/-- Route `GET /contacts/birthday/`: 404 when the repository result is empty,
200 otherwise. -/
def route_get_upcoming_birthdays (today : PyDate) (db : DB) (current_user : Nat) :
    HTTPResult (List Contact) :=
  let contacts := get_upcoming_birthdays today db current_user
  if contacts.isEmpty then HTTPResult.failure 404 CONTACTS_NOT_FOUND
  else HTTPResult.success 200 contacts

/-- Primary-key invariant of the store: equal ids mean equal rows. -/
def uniqueIds (db : DB) : Prop :=
  ∀ c ∈ db.contacts, ∀ d ∈ db.contacts, c.id = d.id → c = d

instance (db : DB) : Decidable (uniqueIds db) := by
  unfold uniqueIds; infer_instance

/-- Follows the spec's words, for comparison with the code's `birthdayCond`:
the birthday's month/day falls within the rolling 7-day window from `today`
through `today + 7`, compared only on month and day, ignoring year. -/
def inSpecWindow (today b : PyDate) : Bool :=
  (List.range 8).any (fun k =>
    (addDays today k).month == b.month && (addDays today k).day == b.day)

/-- Modelled from the spec: the token discriminator claim, one of "access",
"refresh" or "email" (the token service code is not among the sources). -/
inductive TokenKind where
  | access
  | refresh
  | email
deriving DecidableEq, Repr

/-- Modelled from the spec: the claims of a token — subject (user email),
issued-at, expiry, and the discriminator. -/
structure TokenClaims where
  sub : String
  iat : Nat
  exp : Nat
  kind : TokenKind
deriving DecidableEq, Repr

/-- Modelled from the spec: a signed token is its claims together with a
signature over them. -/
structure SignedToken where
  claims : TokenClaims
  sig : Nat
deriving DecidableEq, Repr

/-- Modelled from the spec: the failure of `decode` — bad signature, expired,
or discriminator mismatch. -/
inductive TokenError where
  | invalidToken
deriving DecidableEq, Repr

/-- Modelled from the spec: a deterministic signature of the claims under a
secret key (the concrete MAC is irrelevant to the verified properties). -/
def signClaims (key : Nat) (c : TokenClaims) : Nat :=
  key + 3 * c.iat + 5 * c.exp + 7 * c.sub.length +
    (match c.kind with
     | TokenKind.access => 11
     | TokenKind.refresh => 13
     | TokenKind.email => 17)

/-- Modelled from the spec: mint a signed, time-limited token carrying the
subject and the discriminator. -/
def mintToken (key : Nat) (sub : String) (iat exp : Nat) (kind : TokenKind) :
    SignedToken :=
  let claims : TokenClaims := { sub := sub, iat := iat, exp := exp, kind := kind }
  { claims := claims, sig := signClaims key claims }

/-- Modelled from the spec: short expiry window of access tokens, in seconds. -/
def ACCESS_TOKEN_SECONDS : Nat := 15 * 60

/-- Modelled from the spec: long expiry window of refresh tokens, in seconds. -/
def REFRESH_TOKEN_SECONDS : Nat := 7 * 24 * 60 * 60

/-- Modelled from the spec: medium expiry window of email tokens, in seconds. -/
def EMAIL_TOKEN_SECONDS : Nat := 3 * 24 * 60 * 60

/-- Modelled from the spec: `create_access_token(subject)`. -/
def create_access_token (key : Nat) (sub : String) (now : Nat) : SignedToken :=
  mintToken key sub now (now + ACCESS_TOKEN_SECONDS) TokenKind.access

/-- Modelled from the spec: `create_refresh_token(subject)`. -/
def create_refresh_token (key : Nat) (sub : String) (now : Nat) : SignedToken :=
  mintToken key sub now (now + REFRESH_TOKEN_SECONDS) TokenKind.refresh

/-- Modelled from the spec: `create_email_token(subject)`. -/
def create_email_token (key : Nat) (sub : String) (now : Nat) : SignedToken :=
  mintToken key sub now (now + EMAIL_TOKEN_SECONDS) TokenKind.email

/-- Modelled from the spec: `decode(token, expected_discriminator)` returns
the subject; it fails with `InvalidToken` if the signature is invalid, the
token is expired at `now`, or the discriminator mismatches. -/
def decodeToken (key : Nat) (t : SignedToken) (expected : TokenKind) (now : Nat) :
    Except TokenError String :=
  if t.sig != signClaims key t.claims then Except.error TokenError.invalidToken
  else if t.claims.exp ≤ now then Except.error TokenError.invalidToken
  else if t.claims.kind != expected then Except.error TokenError.invalidToken
  else Except.ok t.claims.sub

/-- Year of the month after the month of `d`. -/
def rollY (d : PyDate) : Nat := if d.month < 12 then d.year else d.year + 1
/-- The month after the month of `d` (as a month number). -/
def rollM (d : PyDate) : Nat := if d.month < 12 then d.month + 1 else 1

/-- Every Gregorian month has at least 28 days. -/
lemma daysInMonth_ge (y m : Nat) : 28 ≤ daysInMonth y m := by
  unfold daysInMonth
  split
  · split <;> omega
  · split <;> omega

/-- `nextDay` within a month. -/
lemma nextDay_stay (d : PyDate) (h : d.day < daysInMonth d.year d.month) :
    nextDay d = ⟨d.year, d.month, d.day + 1⟩ := by
  unfold nextDay; simp [h]

/-- `nextDay` rolling into the next month of the same year. -/
lemma nextDay_roll₁ (d : PyDate) (h : ¬ d.day < daysInMonth d.year d.month)
    (h2 : d.month < 12) : nextDay d = ⟨d.year, d.month + 1, 1⟩ := by
  unfold nextDay; simp [h, h2]

/-- `nextDay` rolling from December into January. -/
lemma nextDay_roll₂ (d : PyDate) (h : ¬ d.day < daysInMonth d.year d.month)
    (h2 : ¬ d.month < 12) : nextDay d = ⟨d.year + 1, 1, 1⟩ := by
  unfold nextDay; simp [h, h2]

/-- Unfolding of `isValidDate`. -/
lemma isValidDate_fields (d : PyDate) (h : isValidDate d = true) :
    1 ≤ d.month ∧ d.month ≤ 12 ∧ 1 ≤ d.day ∧ d.day ≤ daysInMonth d.year d.month := by
  simp only [isValidDate, Bool.and_eq_true, decide_eq_true_eq] at h
  tauto

/-- Within seven days of a valid date, `addDays` either stays in the
starting month (advancing the day) or rolls into the immediately following
month with a day no larger than the days already consumed. -/
lemma addDays_seven_shape (t : PyDate) (ht : isValidDate t = true) :
    ∀ k, k ≤ 7 →
      ((addDays t k).year = t.year ∧ (addDays t k).month = t.month ∧
        (addDays t k).day = t.day + k ∧ t.day + k ≤ daysInMonth t.year t.month)
      ∨ ((addDays t k).year = rollY t ∧ (addDays t k).month = rollM t ∧
        1 ≤ (addDays t k).day ∧
        (addDays t k).day + (daysInMonth t.year t.month - t.day) = k) := by
  obtain ⟨hm1, hm12, hd1, hdle⟩ := isValidDate_fields t ht
  intro k
  induction k with
  | zero =>
    intro _
    left
    exact ⟨rfl, rfl, by simp [addDays], by simpa [addDays] using hdle⟩
  | succ n ih =>
    intro hn
    have hn7 : n ≤ 7 := Nat.le_of_succ_le hn
    have hn6 : n ≤ 6 := by omega
    rcases ih hn7 with ⟨hy, hm, hd, hle⟩ | ⟨hy, hm, hd1', hdk⟩
    · by_cases hlt : t.day + n < daysInMonth t.year t.month
      · left
        have hstep : nextDay (addDays t n) =
            ⟨(addDays t n).year, (addDays t n).month, (addDays t n).day + 1⟩ := by
          apply nextDay_stay
          rw [hd, hy, hm]; exact hlt
        show _ ∧ _ ∧ _ ∧ _
        rw [show addDays t (n + 1) = nextDay (addDays t n) from rfl, hstep]
        exact ⟨hy, hm, by dsimp only; omega, by omega⟩
      · have heq : t.day + n = daysInMonth t.year t.month := by omega
        have hnot : ¬ (addDays t n).day < daysInMonth (addDays t n).year (addDays t n).month := by
          rw [hd, hy, hm]; exact hlt
        right
        by_cases hm12' : t.month < 12
        · have hstep : nextDay (addDays t n) =
              ⟨(addDays t n).year, (addDays t n).month + 1, 1⟩ := by
            apply nextDay_roll₁ _ hnot
            rw [hm]; exact hm12'
          rw [show addDays t (n + 1) = nextDay (addDays t n) from rfl, hstep]
          refine ⟨?_, ?_, le_refl 1, by dsimp only; omega⟩
          · simp [rollY, hm12', hy]
          · simp [rollM, hm12', hm]
        · have hstep : nextDay (addDays t n) =
              ⟨(addDays t n).year + 1, 1, 1⟩ := by
            apply nextDay_roll₂ _ hnot
            rw [hm]; exact hm12'
          rw [show addDays t (n + 1) = nextDay (addDays t n) from rfl, hstep]
          refine ⟨?_, ?_, le_refl 1, by dsimp only; omega⟩
          · simp [rollY, hm12', hy]
          · simp [rollM, hm12']
    · right
      have hdn : (addDays t n).day ≤ 6 := by omega
      have hlt : (addDays t n).day < daysInMonth (addDays t n).year (addDays t n).month := by
        have := daysInMonth_ge (addDays t n).year (addDays t n).month
        omega
      have hstep : nextDay (addDays t n) =
          ⟨(addDays t n).year, (addDays t n).month, (addDays t n).day + 1⟩ :=
        nextDay_stay _ hlt
      rw [show addDays t (n + 1) = nextDay (addDays t n) from rfl, hstep]
      exact ⟨hy, hm, by dsimp only; omega, by dsimp only; omega⟩

/-- Completeness of the code's independent month/day comparison: any
birthday month/day inside the true rolling 7-day window passes
`birthdayCond`. -/
lemma specWindow_birthdayCond (t b : PyDate) (ht : isValidDate t = true)
    (h : inSpecWindow t b = true) :
    birthdayCond t (addDays t 7) b = true := by
  obtain ⟨hm1, hm12, hd1, hdle⟩ := isValidDate_fields t ht
  unfold inSpecWindow at h
  rw [List.any_eq_true] at h
  obtain ⟨k, hk, hkb⟩ := h
  rw [List.mem_range] at hk
  rw [Bool.and_eq_true, beq_iff_eq, beq_iff_eq] at hkb
  obtain ⟨hbm, hbd⟩ := hkb
  have hk7 : k ≤ 7 := by omega
  have hshape := addDays_seven_shape t ht k hk7
  have hshape7 := addDays_seven_shape t ht 7 (le_refl 7)
  unfold birthdayCond
  rw [Bool.or_eq_true, Bool.and_eq_true, Bool.and_eq_true, beq_iff_eq, beq_iff_eq,
    decide_eq_true_eq, decide_eq_true_eq]
  rcases hshape with ⟨hy, hm, hd, hle⟩ | ⟨hy, hm, hdo, hdk⟩
  · left
    constructor
    · rw [← hbm, hm]
    · omega
  · right
    rcases hshape7 with ⟨hy7, hm7, hd7, hle7⟩ | ⟨hy7, hm7, hdo7, hdk7⟩
    · exfalso
      omega
    · constructor
      · rw [← hbm, hm, hm7]
      · omega

/-- A `scalar_one_or_none` success pins the row list down to a singleton. -/
lemma scalarOneOrNone_eq_some {l : List Contact} {c : Contact}
    (h : scalarOneOrNone l = some c) : l = [c] := by
  match l with
  | [] => simp [scalarOneOrNone] at h
  | [x] => simp [scalarOneOrNone] at h; rw [h]
  | x :: y :: rest => simp [scalarOneOrNone] at h

/-- The row found by the id-and-owner select belongs to the table, has the
selected id and is owned by the selecting user. -/
lemma found_row_facts {db : DB} {cid u : Nat} {c : Contact}
    (h : scalarOneOrNone (db.contacts.filter
      (fun c => c.id == cid && c.user == u)) = some c) :
    c ∈ db.contacts ∧ c.id = cid ∧ c.user = u := by
  have hl := scalarOneOrNone_eq_some h
  have hmem : c ∈ db.contacts.filter (fun c => c.id == cid && c.user == u) := by
    rw [hl]; exact List.mem_singleton.mpr rfl
  rw [List.mem_filter, Bool.and_eq_true, beq_iff_eq, beq_iff_eq] at hmem
  tauto

/-- Claim C1: every repository operation is owner-scoped — `get_contacts`
returns only the caller's contacts for any filters/limit/offset,
`get_contact`, `update_contact` and `delete_contact` return only rows owned
by the caller and leave other users' rows untouched, and
`get_upcoming_birthdays` returns only the caller's contacts. -/
theorem ownership_isolation (limit offset : Nat)
    (name surname email : Option String) (db : DB) (u cid : Nat)
    (body : ContactUpdate) (today : PyDate) (hids : uniqueIds db) :
    (∀ c ∈ get_contacts limit offset name surname email db u, c.user = u)
  ∧ (∀ c, get_contact cid db u = some c → c.user = u)
  ∧ (∀ c, (update_contact cid body db u).1 = Except.ok (some c) → c.user = u)
  ∧ (∀ d ∈ db.contacts, d.user ≠ u →
      (d ∈ (update_contact cid body db u).2.contacts))
  ∧ (∀ c, (delete_contact cid db u).1 = Except.ok (some c) → c.user = u)
  ∧ (∀ d ∈ db.contacts, d.user ≠ u →
      (d ∈ (delete_contact cid db u).2.contacts))
  ∧ (∀ c ∈ get_upcoming_birthdays today db u, c.user = u) := by
  refine ⟨?_, ?_, ?_, ?_, ?_, ?_, ?_⟩
  · intro c hc
    unfold get_contacts at hc
    have hc' := List.mem_of_mem_drop (List.mem_of_mem_take hc)
    rw [List.mem_filter] at hc'
    have := hc'.2
    simp only [Bool.and_eq_true, beq_iff_eq] at this
    exact this.1.1.1
  · intro c hc
    unfold get_contact at hc
    exact (found_row_facts hc).2.2
  · intro c hc
    unfold update_contact at hc
    cases hfind : scalarOneOrNone (db.contacts.filter
        (fun c => c.id == cid && c.user == u)) with
    | none => rw [hfind] at hc; simp at hc
    | some existing =>
      rw [hfind] at hc
      by_cases hdup : db.contacts.any
          (fun c => c.id != existing.id && c.email == body.email)
      · simp [hdup] at hc
      · simp only [Bool.not_eq_true] at hdup
        simp [hdup] at hc
        have := (found_row_facts hfind).2.2
        rw [← hc]
        simpa [applyUpdate] using this
  · intro d hd hdu
    unfold update_contact
    cases hfind : scalarOneOrNone (db.contacts.filter
        (fun c => c.id == cid && c.user == u)) with
    | none => simpa using hd
    | some existing =>
      obtain ⟨hex, hexid, hexu⟩ := found_row_facts hfind
      by_cases hdup : db.contacts.any
          (fun c => c.id != existing.id && c.email == body.email)
      · simpa [hdup] using hd
      · simp only [Bool.not_eq_true] at hdup
        simp only [hdup, Bool.false_eq_true, if_false]
        simp only [List.mem_map]
        refine ⟨d, hd, ?_⟩
        have hne : d.id ≠ existing.id := by
          intro hideq
          exact hdu (by rw [hids d hd existing hex hideq]; exact hexu)
        simp [hne]
  · intro c hc
    unfold delete_contact at hc
    cases hfind : scalarOneOrNone (db.contacts.filter
        (fun c => c.id == cid && c.user == u)) with
    | none => rw [hfind] at hc; simp at hc
    | some existing =>
      rw [hfind] at hc
      simp at hc
      rw [← hc]
      exact (found_row_facts hfind).2.2
  · intro d hd hdu
    unfold delete_contact
    cases hfind : scalarOneOrNone (db.contacts.filter
        (fun c => c.id == cid && c.user == u)) with
    | none => simpa using hd
    | some existing =>
      obtain ⟨hex, hexid, hexu⟩ := found_row_facts hfind
      have hne : d.id ≠ existing.id := by
        intro hideq
        exact hdu (by rw [hids d hd existing hex hideq]; exact hexu)
      simp only []
      rw [List.mem_filter]
      exact ⟨hd, by simp [hne]⟩
  · intro c hc
    unfold get_upcoming_birthdays at hc
    rw [List.mem_filter, Bool.and_eq_true] at hc
    have := hc.2.2
    rwa [beq_iff_eq] at this

/-- Witness for C1: on a concrete two-user store, the single contact
returned by `get_contacts` for user 1 is owned by user 1. -/
theorem ownership_isolation_witness :
    (⟨1, "Alice", "Smith", "alice@example.com", "111", ⟨1990, 5, 5⟩, 1⟩ :
      Contact).user = 1 :=
  (ownership_isolation 10 0 none none none
      ⟨[⟨1, "Alice", "Smith", "alice@example.com", "111", ⟨1990, 5, 5⟩, 1⟩,
        ⟨2, "Bob", "Jones", "bob@example.com", "222", ⟨1985, 3, 3⟩, 2⟩], 3⟩
      1 1 ⟨"N", "S", "n@example.com", "3", ⟨2000, 1, 1⟩⟩ ⟨2024, 1, 1⟩
      (by decide)).1
    ⟨1, "Alice", "Smith", "alice@example.com", "111", ⟨1990, 5, 5⟩, 1⟩
    (by decide)

/-- Counterexample to C2: on 2024-01-01 the window `today..today+7` is
Jan 1 – Jan 8, yet a contact with birthday month/day 01-31 is returned by
`get_upcoming_birthdays` although its month/day lies outside that window. -/
theorem upcoming_birthdays_not_exact_window :
    (⟨1, "Ann", "Lee", "ann@example.com", "111", ⟨1990, 1, 31⟩, 1⟩ : Contact) ∈
      get_upcoming_birthdays ⟨2024, 1, 1⟩
        ⟨[⟨1, "Ann", "Lee", "ann@example.com", "111", ⟨1990, 1, 31⟩, 1⟩], 2⟩ 1
    ∧ inSpecWindow ⟨2024, 1, 1⟩ ⟨1990, 1, 31⟩ = false := by
  constructor
  · decide
  · decide

/-- Claim C2 (amended): `get_upcoming_birthdays` returns exactly the caller's
contacts whose birthday passes the code's independent month/day comparison
(month equals the current month with day ≥ today's day, or month equals the
month of `today + 7 days` with day ≤ that day); this includes every contact
whose birthday month/day falls within the true rolling 7-day window, but may
also include contacts later in the current month when the window does not
cross a month boundary. -/
theorem upcoming_birthdays_characterized (today : PyDate)
    (ht : isValidDate today = true) (db : DB) (u : Nat) (c : Contact) :
    (c ∈ get_upcoming_birthdays today db u ↔
      c ∈ db.contacts ∧ c.user = u ∧
        birthdayCond today (addDays today 7) c.birthday = true)
  ∧ (c ∈ db.contacts → c.user = u → inSpecWindow today c.birthday = true →
      c ∈ get_upcoming_birthdays today db u) := by
  have hchar : c ∈ get_upcoming_birthdays today db u ↔
      c ∈ db.contacts ∧ c.user = u ∧
        birthdayCond today (addDays today 7) c.birthday = true := by
    unfold get_upcoming_birthdays
    rw [List.mem_filter, Bool.and_eq_true, beq_iff_eq]
    tauto
  refine ⟨hchar, ?_⟩
  intro hmem hu hwin
  exact hchar.mpr ⟨hmem, hu, specWindow_birthdayCond today c.birthday ht hwin⟩

/-- Witness for C2 (amended): a concrete contact with birthday inside the
cross-month window Feb 26 – Mar 4 is returned. -/
theorem upcoming_birthdays_characterized_witness :
    (⟨1, "Eva", "Ming", "eva@example.com", "222", ⟨1991, 3, 2⟩, 4⟩ : Contact) ∈
      get_upcoming_birthdays ⟨2024, 2, 26⟩
        ⟨[⟨1, "Eva", "Ming", "eva@example.com", "222", ⟨1991, 3, 2⟩, 4⟩], 2⟩ 4 :=
  (upcoming_birthdays_characterized ⟨2024, 2, 26⟩ (by decide)
      ⟨[⟨1, "Eva", "Ming", "eva@example.com", "222", ⟨1991, 3, 2⟩, 4⟩], 2⟩ 4
      ⟨1, "Eva", "Ming", "eva@example.com", "222", ⟨1991, 3, 2⟩, 4⟩).2
    (by decide) (by decide) (by decide)

/-- Claim C3: with current date 2024-12-28 (window through 2025-01-04), a
contact of the caller with birthday month/day 01-02 is returned by
`get_upcoming_birthdays`, and any contact with birthday month/day 12-20 is
not. -/
theorem upcoming_birthdays_cross_year (db : DB) (u : Nat) (c₁ c₂ : Contact)
    (h₁ : c₁ ∈ db.contacts) (hu₁ : c₁.user = u)
    (hm₁ : c₁.birthday.month = 1) (hd₁ : c₁.birthday.day = 2)
    (hm₂ : c₂.birthday.month = 12) (hd₂ : c₂.birthday.day = 20) :
    c₁ ∈ get_upcoming_birthdays ⟨2024, 12, 28⟩ db u
    ∧ c₂ ∉ get_upcoming_birthdays ⟨2024, 12, 28⟩ db u := by
  have hadd : addDays ⟨2024, 12, 28⟩ 7 = ⟨2025, 1, 4⟩ := by decide
  constructor
  · unfold get_upcoming_birthdays
    rw [List.mem_filter]
    refine ⟨h₁, ?_⟩
    rw [hadd]
    simp [birthdayCond, hm₁, hd₁, hu₁]
  · intro hmem
    unfold get_upcoming_birthdays at hmem
    rw [List.mem_filter] at hmem
    have := hmem.2
    rw [hadd] at this
    simp [birthdayCond, hm₂, hd₂] at this

/-- Witness for C3: concrete contacts with birthdays 2001-01-02 (included)
and 1999-12-20 (excluded) on current date 2024-12-28. -/
theorem upcoming_birthdays_cross_year_witness :
    (⟨1, "Jan", "New", "jan@example.com", "111", ⟨2001, 1, 2⟩, 7⟩ : Contact) ∈
      get_upcoming_birthdays ⟨2024, 12, 28⟩
        ⟨[⟨1, "Jan", "New", "jan@example.com", "111", ⟨2001, 1, 2⟩, 7⟩,
          ⟨2, "Dee", "Old", "dee@example.com", "222", ⟨1999, 12, 20⟩, 7⟩], 3⟩ 7
    ∧ (⟨2, "Dee", "Old", "dee@example.com", "222", ⟨1999, 12, 20⟩, 7⟩ :
        Contact) ∉
      get_upcoming_birthdays ⟨2024, 12, 28⟩
        ⟨[⟨1, "Jan", "New", "jan@example.com", "111", ⟨2001, 1, 2⟩, 7⟩,
          ⟨2, "Dee", "Old", "dee@example.com", "222", ⟨1999, 12, 20⟩, 7⟩], 3⟩ 7 :=
  upcoming_birthdays_cross_year
    ⟨[⟨1, "Jan", "New", "jan@example.com", "111", ⟨2001, 1, 2⟩, 7⟩,
      ⟨2, "Dee", "Old", "dee@example.com", "222", ⟨1999, 12, 20⟩, 7⟩], 3⟩ 7
    ⟨1, "Jan", "New", "jan@example.com", "111", ⟨2001, 1, 2⟩, 7⟩
    ⟨2, "Dee", "Old", "dee@example.com", "222", ⟨1999, 12, 20⟩, 7⟩
    (by decide) (by decide) (by decide) (by decide) (by decide) (by decide)

/-- Claim C4: when no contact matches, the repository signals not-found by
absence instead of raising — `get_contacts` returns the empty list, and
`get_contact`, `update_contact` and `delete_contact` return `None` (leaving
the store unchanged). -/
theorem not_found_returns_absent (cid limit offset : Nat)
    (name surname email : Option String) (body : ContactUpdate) (db : DB)
    (u : Nat)
    (hnone : ∀ c ∈ db.contacts, ¬(c.id = cid ∧ c.user = u))
    (hfilt : ∀ c ∈ db.contacts, ¬(c.user = u
      ∧ optFilter name c.name = true
      ∧ optFilter surname c.surname = true
      ∧ optFilter email c.email = true)) :
    get_contacts limit offset name surname email db u = []
  ∧ get_contact cid db u = none
  ∧ update_contact cid body db u = (Except.ok none, db)
  ∧ delete_contact cid db u = (Except.ok none, db) := by
  have hsel : db.contacts.filter (fun c => c.id == cid && c.user == u) = [] := by
    rw [List.filter_eq_nil_iff]
    intro c hc
    have := hnone c hc
    simp only [Bool.and_eq_true, beq_iff_eq]
    tauto
  refine ⟨?_, ?_, ?_, ?_⟩
  · unfold get_contacts
    have : db.contacts.filter (fun c =>
        c.user == u && optFilter name c.name
          && optFilter surname c.surname && optFilter email c.email) = [] := by
      rw [List.filter_eq_nil_iff]
      intro c hc
      have := hfilt c hc
      simp only [Bool.and_eq_true, beq_iff_eq]
      tauto
    rw [this]
    simp
  · unfold get_contact
    rw [hsel]
    rfl
  · unfold update_contact
    rw [hsel]
    rfl
  · unfold delete_contact
    rw [hsel]
    rfl

/-- Witness for C4: a store holding only another user's contact yields empty
and absent results for user 5. -/
theorem not_found_returns_absent_witness :
    get_contacts 10 0 none none none
      ⟨[⟨1, "Bob", "Jones", "bob@example.com", "222", ⟨1985, 3, 3⟩, 2⟩], 2⟩ 5 = []
  ∧ get_contact 1
      ⟨[⟨1, "Bob", "Jones", "bob@example.com", "222", ⟨1985, 3, 3⟩, 2⟩], 2⟩ 5 = none
  ∧ update_contact 1 ⟨"N", "S", "n@example.com", "3", ⟨2000, 1, 1⟩⟩
      ⟨[⟨1, "Bob", "Jones", "bob@example.com", "222", ⟨1985, 3, 3⟩, 2⟩], 2⟩ 5 =
      (Except.ok none,
        ⟨[⟨1, "Bob", "Jones", "bob@example.com", "222", ⟨1985, 3, 3⟩, 2⟩], 2⟩)
  ∧ delete_contact 1
      ⟨[⟨1, "Bob", "Jones", "bob@example.com", "222", ⟨1985, 3, 3⟩, 2⟩], 2⟩ 5 =
      (Except.ok none,
        ⟨[⟨1, "Bob", "Jones", "bob@example.com", "222", ⟨1985, 3, 3⟩, 2⟩], 2⟩) :=
  not_found_returns_absent 1 10 0 none none none
    ⟨"N", "S", "n@example.com", "3", ⟨2000, 1, 1⟩⟩
    ⟨[⟨1, "Bob", "Jones", "bob@example.com", "222", ⟨1985, 3, 3⟩, 2⟩], 2⟩ 5
    (by decide) (by decide)

/-- Claim C5: each write operation is atomic over the committed store — on a
store-level failure the state is exactly the pre-state (rollback, no partial
write), and a successful `create_contact` commits exactly the appended row. -/
theorem write_transaction_atomic (body : ContactSchema)
    (bodyU : ContactUpdate) (cid : Nat) (db : DB) (u : Nat) :
    (∀ e, (create_contact body db u).1 = Except.error e →
      (create_contact body db u).2 = db)
  ∧ (∀ c, (create_contact body db u).1 = Except.ok c →
      (create_contact body db u).2.contacts = db.contacts ++ [c])
  ∧ (∀ e, (update_contact cid bodyU db u).1 = Except.error e →
      (update_contact cid bodyU db u).2 = db)
  ∧ (∀ e, (delete_contact cid db u).1 = Except.error e →
      (delete_contact cid db u).2 = db) := by
  refine ⟨?_, ?_, ?_, ?_⟩
  · intro e h
    by_cases hdup : db.contacts.any (fun c => c.email == body.email)
    · simp [create_contact, hdup]
    · simp only [Bool.not_eq_true] at hdup
      simp [create_contact, hdup] at h
  · intro c h
    by_cases hdup : db.contacts.any (fun c => c.email == body.email)
    · simp [create_contact, hdup] at h
    · simp only [Bool.not_eq_true] at hdup
      simp [create_contact, hdup] at h ⊢
      rw [← h]
  · intro e h
    unfold update_contact at h ⊢
    cases hfind : scalarOneOrNone (db.contacts.filter
        (fun c => c.id == cid && c.user == u)) with
    | none => rfl
    | some existing =>
      by_cases hdup : db.contacts.any
          (fun c => c.id != existing.id && c.email == bodyU.email)
      · simp [hdup]
      · simp only [Bool.not_eq_true] at hdup
        rw [hfind] at h
        simp [hdup] at h
  · intro e h
    unfold delete_contact at h
    cases hfind : scalarOneOrNone (db.contacts.filter
        (fun c => c.id == cid && c.user == u)) with
    | none => rw [hfind] at h; simp at h
    | some existing => rw [hfind] at h; simp at h

/-- Witness for C5: a duplicate-email `create_contact` fails and leaves the
concrete store unchanged. -/
theorem write_transaction_atomic_witness :
    (create_contact ⟨"New", "Guy", "bob@example.com", "9", ⟨2000, 1, 1⟩⟩
      ⟨[⟨1, "Bob", "Jones", "bob@example.com", "222", ⟨1985, 3, 3⟩, 2⟩], 2⟩ 2).2 =
    ⟨[⟨1, "Bob", "Jones", "bob@example.com", "222", ⟨1985, 3, 3⟩, 2⟩], 2⟩ :=
  (write_transaction_atomic
      ⟨"New", "Guy", "bob@example.com", "9", ⟨2000, 1, 1⟩⟩
      ⟨"New", "Guy", "bob@example.com", "9", ⟨2000, 1, 1⟩⟩ 1
      ⟨[⟨1, "Bob", "Jones", "bob@example.com", "222", ⟨1985, 3, 3⟩, 2⟩], 2⟩ 2).1
    (RepoError.httpError 500 integrityErrorText) (by rfl)

/-- Counterexample to C6: on a concrete unique-email violation,
`create_contact` raises an error whose user-visible detail is exactly the
store's internal error text `str(e)` (it contains the store's
"IntegrityError" text), not a generic message. -/
theorem create_error_detail_is_store_text :
    (create_contact ⟨"Zed", "Q", "dup@example.com", "5", ⟨1999, 9, 9⟩⟩
      ⟨[⟨1, "Ann", "B", "dup@example.com", "1", ⟨1990, 1, 1⟩, 3⟩], 2⟩ 3).1 =
      Except.error (RepoError.httpError 500 integrityErrorText)
    ∧ containsChars integrityErrorText.toList "IntegrityError".toList = true := by
  constructor
  · rfl
  · decide

/-- Claim C6 (amended): on a store-level unique-email violation,
`create_contact` rolls back (the store is unchanged) and raises
`HTTPException(500, detail=str(e))`, whose detail is the internal store
error text rather than a generic message. -/
theorem create_constraint_failure (body : ContactSchema) (db : DB) (u : Nat)
    (hdup : db.contacts.any (fun c => c.email == body.email) = true) :
    create_contact body db u =
      (Except.error (RepoError.httpError 500 integrityErrorText), db) := by
  unfold create_contact
  simp [hdup]

/-- Witness for C6 (amended): the concrete duplicate-email insert fails with
the 500 error carrying the store text and leaves the store unchanged. -/
theorem create_constraint_failure_witness :
    create_contact ⟨"Ned", "R", "eve@example.com", "5", ⟨1999, 9, 9⟩⟩
      ⟨[⟨4, "Eve", "B", "eve@example.com", "1", ⟨1990, 1, 1⟩, 6⟩], 5⟩ 6 =
      (Except.error (RepoError.httpError 500 integrityErrorText),
        ⟨[⟨4, "Eve", "B", "eve@example.com", "1", ⟨1990, 1, 1⟩, 6⟩], 5⟩) :=
  create_constraint_failure ⟨"Ned", "R", "eve@example.com", "5", ⟨1999, 9, 9⟩⟩
    ⟨[⟨4, "Eve", "B", "eve@example.com", "1", ⟨1990, 1, 1⟩, 6⟩], 5⟩ 6
    (by decide)

/-- Claim C7: a successful `update_contact` replaces exactly the five mutable
fields with the payload values and keeps the row's id and owner; and no
Contact Query Layer operation ever changes a row's owner — `create_contact`
sets the caller as owner, `update_contact` preserves each row's id/owner
pairing, `delete_contact` only removes rows. -/
theorem update_replaces_fields_owner_fixed (cid : Nat) (body : ContactUpdate)
    (db : DB) (u : Nat) :
    (∀ c', (update_contact cid body db u).1 = Except.ok (some c') →
      c'.id = cid ∧ c'.user = u ∧ c'.name = body.name
      ∧ c'.surname = body.surname ∧ c'.email = body.email
      ∧ c'.phone = body.phone ∧ c'.birthday = body.birthday)
  ∧ (∀ e ∈ (update_contact cid body db u).2.contacts,
      ∃ d ∈ db.contacts, e.id = d.id ∧ e.user = d.user)
  ∧ (∀ bodyC c, (create_contact bodyC db u).1 = Except.ok c → c.user = u)
  ∧ (∀ e ∈ (delete_contact cid db u).2.contacts, e ∈ db.contacts) := by
  refine ⟨?_, ?_, ?_, ?_⟩
  · intro c' h
    unfold update_contact at h
    cases hfind : scalarOneOrNone (db.contacts.filter
        (fun c => c.id == cid && c.user == u)) with
    | none => rw [hfind] at h; simp at h
    | some existing =>
      rw [hfind] at h
      by_cases hdup : db.contacts.any
          (fun c => c.id != existing.id && c.email == body.email)
      · simp [hdup] at h
      · simp only [Bool.not_eq_true] at hdup
        simp [hdup] at h
        obtain ⟨hex, hid, hu⟩ := found_row_facts hfind
        rw [← h]
        refine ⟨?_, ?_, rfl, rfl, rfl, rfl, rfl⟩
        · simpa [applyUpdate] using hid
        · simpa [applyUpdate] using hu
  · intro e he
    unfold update_contact at he
    cases hfind : scalarOneOrNone (db.contacts.filter
        (fun c => c.id == cid && c.user == u)) with
    | none =>
      rw [hfind] at he
      exact ⟨e, he, rfl, rfl⟩
    | some existing =>
      rw [hfind] at he
      by_cases hdup : db.contacts.any
          (fun c => c.id != existing.id && c.email == body.email)
      · simp only [hdup, if_true] at he
        exact ⟨e, he, rfl, rfl⟩
      · simp only [Bool.not_eq_true] at hdup
        simp only [hdup, Bool.false_eq_true, if_false] at he
        rw [List.mem_map] at he
        obtain ⟨d, hd, hde⟩ := he
        refine ⟨d, hd, ?_⟩
        rw [← hde]
        by_cases hdid : d.id == existing.id
        · simp [hdid, applyUpdate]
        · simp [hdid]
  · intro bodyC c h
    by_cases hdup : db.contacts.any (fun d => d.email == bodyC.email)
    · simp [create_contact, hdup] at h
    · simp only [Bool.not_eq_true] at hdup
      simp [create_contact, hdup] at h
      rw [← h]
  · intro e he
    unfold delete_contact at he
    cases hfind : scalarOneOrNone (db.contacts.filter
        (fun c => c.id == cid && c.user == u)) with
    | none =>
      rw [hfind] at he
      exact he
    | some existing =>
      rw [hfind] at he
      exact List.mem_of_mem_filter he

/-- Witness for C7: updating a concrete contact of user 8 yields exactly the
payload fields with the original id and owner. -/
theorem update_replaces_fields_owner_fixed_witness :
    (update_contact 3 ⟨"Neo", "Kay", "neo@example.com", "77", ⟨1992, 2, 2⟩⟩
      ⟨[⟨3, "Old", "Kay", "old@example.com", "70", ⟨1992, 2, 2⟩, 8⟩], 4⟩ 8).1 =
      Except.ok (some ⟨3, "Neo", "Kay", "neo@example.com", "77", ⟨1992, 2, 2⟩, 8⟩)
    ∧ (⟨3, "Neo", "Kay", "neo@example.com", "77", ⟨1992, 2, 2⟩, 8⟩ :
        Contact).user = 8 := by
  constructor
  · rfl
  · exact ((update_replaces_fields_owner_fixed 3
      ⟨"Neo", "Kay", "neo@example.com", "77", ⟨1992, 2, 2⟩⟩
      ⟨[⟨3, "Old", "Kay", "old@example.com", "70", ⟨1992, 2, 2⟩, 8⟩], 4⟩ 8).1
      ⟨3, "Neo", "Kay", "neo@example.com", "77", ⟨1992, 2, 2⟩, 8⟩ (by rfl)).2.1

/-- Claim C8: under a fresh primary key and a non-conflicting email,
`create_contact` followed by `get_contact` on the created id returns exactly
the created record, whose fields are the payload fields and whose owner is
the caller (the model carries no server timestamps). -/
theorem create_get_round_trip (body : ContactSchema) (db : DB) (u : Nat)
    (hwf : ∀ c ∈ db.contacts, c.id < db.nextId)
    (hem : ∀ c ∈ db.contacts, c.email ≠ body.email) :
    ∃ created db',
      create_contact body db u = (Except.ok created, db')
      ∧ get_contact created.id db' u = some created
      ∧ created.name = body.name ∧ created.surname = body.surname
      ∧ created.email = body.email ∧ created.phone = body.phone
      ∧ created.birthday = body.birthday ∧ created.user = u := by
  have hdup : db.contacts.any (fun c => c.email == body.email) = false := by
    rw [List.any_eq_false]
    intro c hc
    simpa using hem c hc
  refine ⟨⟨db.nextId, body.name, body.surname, body.email, body.phone,
      body.birthday, u⟩,
    ⟨db.contacts ++ [⟨db.nextId, body.name, body.surname, body.email,
      body.phone, body.birthday, u⟩], db.nextId + 1⟩,
    ?_, ?_, rfl, rfl, rfl, rfl, rfl, rfl⟩
  · unfold create_contact
    simp [hdup]
  · unfold get_contact
    show scalarOneOrNone ((db.contacts ++ [(⟨db.nextId, body.name,
        body.surname, body.email, body.phone, body.birthday, u⟩ : Contact)]).filter
      (fun c => c.id == db.nextId && c.user == u)) = _
    rw [List.filter_append]
    have hold : db.contacts.filter (fun c => c.id == db.nextId && c.user == u) = [] := by
      rw [List.filter_eq_nil_iff]
      intro c hc
      have := hwf c hc
      simp only [Bool.and_eq_true, beq_iff_eq, not_and]
      intro h1
      omega
    rw [hold]
    simp [scalarOneOrNone]

/-- Witness for C8: creating into an empty store and reading back the fresh
id returns the created record. -/
theorem create_get_round_trip_witness :
    ∃ created db',
      create_contact ⟨"Tom", "Ray", "tom@example.com", "12", ⟨1993, 7, 7⟩⟩
        ⟨[], 1⟩ 9 = (Except.ok created, db')
      ∧ get_contact created.id db' 9 = some created
      ∧ created.name = "Tom" ∧ created.surname = "Ray"
      ∧ created.email = "tom@example.com" ∧ created.phone = "12"
      ∧ created.birthday = (⟨1993, 7, 7⟩ : PyDate) ∧ created.user = 9 :=
  create_get_round_trip ⟨"Tom", "Ray", "tom@example.com", "12", ⟨1993, 7, 7⟩⟩
    ⟨[], 1⟩ 9 (by simp) (by simp)

/-- Claim C9: decoding a token minted with one discriminator while expecting
a different discriminator always fails with `InvalidToken`; and `decode`
returns a subject only when the signature is valid, the token is unexpired
and the discriminator matches the expected one. -/
theorem token_discriminator_guard (key iat exp now : Nat) (sub : String)
    (mintedWith expected : TokenKind) (hne : mintedWith ≠ expected) :
    decodeToken key (mintToken key sub iat exp mintedWith) expected now =
      Except.error TokenError.invalidToken
  ∧ (∀ (t : SignedToken) (e : TokenKind) (s : String),
      decodeToken key t e now = Except.ok s →
      t.sig = signClaims key t.claims ∧ now < t.claims.exp
      ∧ t.claims.kind = e ∧ s = t.claims.sub) := by
  constructor
  · unfold decodeToken mintToken
    simp only [bne_self_eq_false, Bool.false_eq_true, if_false]
    by_cases hexp : exp ≤ now
    · simp [hexp]
    · simp [hexp, bne_iff_ne, hne]
  · intro t e s h
    unfold decodeToken at h
    by_cases h1 : (t.sig != signClaims key t.claims) = true
    · simp [h1] at h
    · rw [if_neg h1] at h
      by_cases h2 : t.claims.exp ≤ now
      · simp [h2] at h
      · rw [if_neg h2] at h
        by_cases h3 : (t.claims.kind != e) = true
        · simp [h3] at h
        · rw [if_neg h3] at h
          rw [Except.ok.injEq] at h
          refine ⟨?_, by omega, ?_, h.symm⟩
          · simpa [bne_iff_ne] using h1
          · simpa [bne_iff_ne] using h3

/-- Witness for C9: a concrete access token decoded while expecting the
refresh discriminator fails with `InvalidToken`. -/
theorem token_discriminator_guard_witness :
    decodeToken 42 (mintToken 42 "user@example.com" 0 900 TokenKind.access)
      TokenKind.refresh 0 = Except.error TokenError.invalidToken :=
  (token_discriminator_guard 42 0 900 0 "user@example.com"
    TokenKind.access TokenKind.refresh (by decide)).1

/-- Claim C10: the contact-list and upcoming-birthdays endpoints respond with
a 404 `HTTPException` exactly when the repository result is empty, and with
status 200 and the repository result otherwise. -/
theorem routes_404_on_empty (limit offset : Nat)
    (name surname email : Option String) (db : DB) (u : Nat) (today : PyDate) :
    (get_contacts limit offset name surname email db u = [] →
      route_get_contacts limit offset name surname email db u =
        HTTPResult.failure 404 CONTACTS_NOT_FOUND)
  ∧ (get_contacts limit offset name surname email db u ≠ [] →
      route_get_contacts limit offset name surname email db u =
        HTTPResult.success 200
          (get_contacts limit offset name surname email db u))
  ∧ (get_upcoming_birthdays today db u = [] →
      route_get_upcoming_birthdays today db u =
        HTTPResult.failure 404 CONTACTS_NOT_FOUND)
  ∧ (get_upcoming_birthdays today db u ≠ [] →
      route_get_upcoming_birthdays today db u =
        HTTPResult.success 200 (get_upcoming_birthdays today db u)) := by
  refine ⟨?_, ?_, ?_, ?_⟩
  · intro h
    unfold route_get_contacts
    simp [h]
  · intro h
    unfold route_get_contacts
    rw [if_neg]
    simp [List.isEmpty_iff, h]
  · intro h
    unfold route_get_upcoming_birthdays
    simp [h]
  · intro h
    unfold route_get_upcoming_birthdays
    rw [if_neg]
    simp [List.isEmpty_iff, h]

/-- Witness for C10: on an empty concrete store the contact-list endpoint
responds 404. -/
theorem routes_404_on_empty_witness :
    route_get_contacts 10 0 none none none ⟨[], 1⟩ 3 =
      HTTPResult.failure 404 CONTACTS_NOT_FOUND :=
  (routes_404_on_empty 10 0 none none none ⟨[], 1⟩ 3 ⟨2024, 1, 1⟩).1 (by rfl)
